import Mathlib

/-
Verification of the credentials service: a shallow embedding of the
credential issuance, query/update flow and the catalog data migration,
with theorems checking the documented contract.
-/

namespace Credentials

/-- Modelled from the spec: a (namespace, name, value) attribute attached to an
issued credential (production model UserCredentialAttribute is not in the
sources; the test file pins its wire shape). -/
structure CredAttribute where
  «namespace» : String
  name : String
  value : String
deriving DecidableEq, Repr

/-- Modelled from the spec: the abstract credential definition, a tagged union of
a program certificate (natural key program id) and a course certificate
(natural key course id plus certificate type). Identifiers are kept as strings
as they appear on the wire. -/
inductive CredentialDefinition where
  | programCertificate (program_id : String)
  | courseCertificate (course_id : String) (certificate_type : String)
deriving DecidableEq, Repr

/-- Modelled from the spec: the polymorphic credential reference submitted by a
client: absent (the empty payload), a program variant, or a course variant. -/
inductive CredentialRef where
  | blank
  | program (program_id : String)
  | course (course_id : String) (certificate_type : String)
deriving DecidableEq, Repr

/-- Modelled from the spec: resolution failures of the credential registry. -/
inductive ResolutionError where
  | missingCredentialID
  | credentialNotFound (id : String) (underlying : String)
deriving DecidableEq, Repr

/-- Underlying lookup failure text for a missing program certificate, as pinned
by the test file. -/
def programLookupError : String := "ProgramCertificate matching query does not exist."

/-- Underlying lookup failure text for a missing course certificate. -/
def courseLookupError : String := "CourseCertificate matching query does not exist."

/-- Modelled from the spec: the credential registry resolves a reference against
the set of known credential definitions. Neither variant present, or an empty
identifier, is a missing credential id; a present identifier with no matching
definition is a not-found error carrying the underlying lookup failure text. -/
def resolve (db : List CredentialDefinition) : CredentialRef → Except ResolutionError CredentialDefinition
  | .blank => .error .missingCredentialID
  | .program pid =>
    if pid = "" then .error .missingCredentialID
    else
      match db.find? (fun d => d = .programCertificate pid) with
      | some d => .ok d
      | none => .error (.credentialNotFound pid programLookupError)
  | .course cid ctype =>
    if cid = "" then .error .missingCredentialID
    else
      match db.find? (fun d => d = .courseCertificate cid ctype) with
      | some d => .ok d
      | none => .error (.credentialNotFound cid courseLookupError)

/-- Modelled from the spec: a string is blank when it is empty (the shape the
tests exercise for the non-blank rules). -/
def isBlank (s : String) : Bool := s = ""

/-- Modelled from the spec: attribute validation failures: a blank namespace or
name at a given position, or a duplicated (namespace, name) pair across the
sequence. -/
inductive AttrError where
  | blankField (idx : Nat) (field : String)
  | duplicated
deriving DecidableEq, Repr

/-- The (namespace, name) key of an attribute, compared by exact case-sensitive
string equality. -/
def attrKey (a : CredAttribute) : String × String := (a.«namespace», a.name)

/-- First position in the sequence at which the namespace or the name is blank,
together with the offending field name. -/
def firstBlank : List CredAttribute → Option (Nat × String)
  | [] => none
  | a :: rest =>
    if isBlank a.«namespace» then some (0, "namespace")
    else if isBlank a.name then some (0, "name")
    else (firstBlank rest).map (fun p => (p.1 + 1, p.2))

/-- Whether some (namespace, name) key occurs twice in the sequence. -/
def hasDuplicateKeys : List CredAttribute → Bool
  | [] => false
  | a :: rest => rest.any (fun b => attrKey b = attrKey a) || hasDuplicateKeys rest

/-- Modelled from the spec: the attribute validator: per-element non-blank checks
first, reported by position; then, across the whole sequence, the duplicate
(namespace, name) key check. -/
def validateAttributes (attrs : List CredAttribute) : Except AttrError (List CredAttribute) :=
  match firstBlank attrs with
  | some p => .error (.blankField p.1 p.2)
  | none => if hasDuplicateKeys attrs then .error .duplicated else .ok attrs

/-- Modelled from the spec: the status of an issued credential. -/
inductive CredStatus where
  | awarded
  | revoked
deriving DecidableEq, Repr

/-- Parse a wire status string into the recognized enum values. -/
def statusOfString (s : String) : Option CredStatus :=
  if s = "awarded" then some .awarded
  else if s = "revoked" then some .revoked
  else none

/-- Modelled from the spec: one issued credential: an opaque stable id, the
holder username, the owned credential definition reference, a status, a
download url and the attributes attached at creation time. -/
structure UserCredential where
  id : Nat
  username : String
  credential : CredentialDefinition
  status : CredStatus
  download_url : String
  attributes : List CredAttribute
deriving DecidableEq, Repr

/-- Modelled from the spec: the durable store: issued credentials in creation
order plus the next fresh id. -/
structure Store where
  credentials : List UserCredential
  nextId : Nat
deriving DecidableEq, Repr

/-- Log levels used by the issuance flow. -/
inductive LogLevel where
  | warning
  | error
deriving DecidableEq, Repr

/-- One structured log record: logger name, level, message. -/
structure LogRecord where
  logger : String
  level : LogLevel
  msg : String
deriving DecidableEq, Repr

/-- Logger name of the issuance engine, as pinned by the test file. -/
def issuerLogger : String := "credentials.apps.credentials.issuers"

/-- Logger name of the serialization layer, as pinned by the test file. -/
def serializerLogger : String := "credentials.apps.api.serializers"

/-- Warning message emitted on an idempotent re-issuance. -/
def duplicateIssuanceMsg (username program_id : String) : String :=
  "User [" ++ username ++ "] already has a credential for program [" ++ program_id ++ "]."

/-- Error message logged when a submitted credential id resolves to nothing. -/
def credentialNotFoundMsg (id underlying : String) : String :=
  "Credential ID [" ++ id ++ "] for [" ++ underlying ++ "]"

/-- The identifier quoted in the re-issuance warning: the program id for a
program certificate, the course id for a course certificate. -/
def definitionKey : CredentialDefinition → String
  | .programCertificate pid => pid
  | .courseCertificate cid _ => cid

/-- Per-field validation messages, as the test file asserts on them. -/
def blankMsg : String := "This field may not be blank."

/-- Sequence-level duplicate-attributes message. -/
def duplicatedMsg : String := "Attributes cannot be duplicated."

/-- Missing credential id message. -/
def missingIdMsg : String := "Credential ID is missing."

/-- A field-keyed error value in a response body: either a list of messages, or
messages attributed to the index of an attribute entry and a sub-field. -/
inductive ErrorVal where
  | messages (msgs : List String)
  | atIndex (idx : Nat) (field : String) (msgs : List String)
deriving DecidableEq, Repr

/-- An HTTP-level outcome: status code, optional credential body, field-keyed
errors and emitted log records. -/
structure Response where
  statusCode : Nat
  body : Option UserCredential
  errors : List (String × ErrorVal)
  logs : List LogRecord
deriving DecidableEq, Repr

/-- Existing credential for a (username, resolved definition) pair, if any. -/
def findCredential (store : Store) (username : String) (d : CredentialDefinition) : Option UserCredential :=
  store.credentials.find? (fun c => c.username = username && c.credential = d)

/-- Modelled from the spec: the issuance engine (production issuers and
serializers are not in the sources; the test file pins the contract).
Username, credential reference and attributes are validated in order with
short-circuit and no persistence on failure; then the engine atomically
finds or creates the user credential: a found record is returned untouched
with a single warning log, a fresh record is created with status awarded and
the validated attributes attached. Success is HTTP 201 either way. -/
def issue (db : List CredentialDefinition) (store : Store)
    (username : String) (ref : CredentialRef) (attrs : List CredAttribute) :
    Response × Store :=
  if isBlank username then
    (⟨400, none, [("username", .messages [blankMsg])], []⟩, store)
  else
    match resolve db ref with
    | .error .missingCredentialID =>
      (⟨400, none, [("credential", .messages [missingIdMsg])], []⟩, store)
    | .error (.credentialNotFound i u) =>
      (⟨400, none, [("credential", .messages [credentialNotFoundMsg i u])],
        [⟨serializerLogger, .error, credentialNotFoundMsg i u⟩]⟩, store)
    | .ok d =>
      match validateAttributes attrs with
      | .error (.blankField i f) =>
        (⟨400, none, [("attributes", .atIndex i f [blankMsg])], []⟩, store)
      | .error .duplicated =>
        (⟨400, none, [("attributes", .messages [duplicatedMsg])], []⟩, store)
      | .ok validAttrs =>
        match findCredential store username d with
        | some existing =>
          (⟨201, some existing, [],
            [⟨issuerLogger, .warning, duplicateIssuanceMsg username (definitionKey d)⟩]⟩, store)
        | none =>
          let uc : UserCredential := ⟨store.nextId, username, d, .awarded, "", validAttrs⟩
          (⟨201, some uc, [], []⟩, ⟨store.credentials ++ [uc], store.nextId + 1⟩)

/-- Failures of the list operation. -/
inductive ListError where
  | missingRequiredFilter
  | invalidStatusFilter (s : String)
deriving DecidableEq, Repr

/-- Modelled from the spec: filtered retrieval: the username filter is mandatory;
the status filter is optional and must be a recognized enum value; matching is
exact equality, results in creation order. -/
def listCredentials (store : Store) (usernameFilter : Option String) (statusFilter : Option String) :
    Except ListError (List UserCredential) :=
  match usernameFilter with
  | none => .error .missingRequiredFilter
  | some u =>
    match statusFilter with
    | none => .ok (store.credentials.filter (fun c => c.username = u))
    | some s =>
      match statusOfString s with
      | none => .error (.invalidStatusFilter s)
      | some st => .ok (store.credentials.filter (fun c => c.username = u && c.status = st))

/-- HTTP status code of a list outcome. -/
def listStatusCode : Except ListError (List UserCredential) → Nat
  | .error _ => 400
  | .ok _ => 200

/-- The value of a named field in a wire patch payload, if present. -/
def lookupField (patch : List (String × String)) (field : String) : Option String :=
  (patch.find? (fun p => p.1 = field)).map (fun p => p.2)

/-- Modelled from the spec: apply a partial-update payload to a stored
credential. Only the status field takes effect and it must be a recognized
enum value; every other field in the patch, download_url included, is silently
ignored (the test test_partial_update pins that a patched download_url leaves
the stored value unchanged). -/
def applyPatch (uc : UserCredential) (patch : List (String × String)) : Except String UserCredential :=
  match lookupField patch "status" with
  | none => .ok uc
  | some s =>
    match statusOfString s with
    | none => .error s
    | some st => .ok { uc with status := st }

/-- Modelled from the spec: the update operation: locate the credential by id,
apply the patch, and store the result; a missing id is 404, an unrecognized
status 400, success 200. -/
def updateCredential (store : Store) (id : Nat) (patch : List (String × String)) : Nat × Store :=
  match store.credentials.find? (fun c => c.id = id) with
  | none => (404, store)
  | some uc =>
    match applyPatch uc patch with
    | .error _ => (400, store)
    | .ok uc2 =>
      (200, ⟨store.credentials.map (fun c => if c.id = id then uc2 else c), store.nextId⟩)

/-- Modelled from the spec: one row of the catalog CourseRun table, reduced to
the columns the data migration reads and writes plus an opaque remainder of
columns (the production model is not in the sources). -/
structure CourseRun where
  id : Nat
  start : Option String
  «end» : Option String
  start_date : Option String
  end_date : Option String
  other : String
deriving DecidableEq, Repr

/-- Forward data migration of catalog migration 0012: for every CourseRun row,
copy the start and end columns into start_date and end_date and save the
row. -/
def copy_column_values_forwards (rows : List CourseRun) : List CourseRun :=
  rows.map (fun r => { r with start_date := r.start, end_date := r.«end» })

/-- Backward data migration of catalog migration 0012: an explicit no-op so that
a rollback is permitted; it touches no row. -/
def copy_column_values_backwards (rows : List CourseRun) : List CourseRun :=
  rows

/-- A credential reference in which neither variant is present, or whose present
identifier is empty: the input domain of the missing-credential-id rule. -/
def refMissingId : CredentialRef → Bool
  | .blank => true
  | .program pid => pid = ""
  | .course cid _ => cid = ""

/- Helper lemmas -/

lemma find?_append_of_none {α : Type} (p : α → Bool) (l1 l2 : List α)
    (h : l1.find? p = none) : (l1 ++ l2).find? p = l2.find? p := by
  induction l1 with
  | nil => simp
  | cons a t ih =>
    cases hp : p a with
    | true => simp [List.find?_cons_of_pos _ hp] at h
    | false =>
      rw [List.find?_cons_of_neg _ (by simp [hp])] at h
      rw [List.cons_append, List.find?_cons_of_neg _ (by simp [hp])]
      exact ih h

lemma firstBlank_eq_none_iff (l : List CredAttribute) :
    firstBlank l = none ↔
      ∀ a ∈ l, isBlank a.«namespace» = false ∧ isBlank a.name = false := by
  induction l with
  | nil => simp [firstBlank]
  | cons a t ih =>
    cases hns : isBlank a.«namespace» with
    | true => simp [firstBlank, hns]
    | false =>
      cases hn : isBlank a.name with
      | true => simp [firstBlank, hns, hn]
      | false => simp [firstBlank, hns, hn, ih]

lemma firstBlank_spec (l : List CredAttribute) (i : Nat) (f : String)
    (h : firstBlank l = some (i, f)) :
    ∃ hi : i < l.length,
      (f = "namespace" ∧ isBlank (l.get ⟨i, hi⟩).«namespace» = true) ∨
      (f = "name" ∧ isBlank (l.get ⟨i, hi⟩).name = true) := by
  induction l generalizing i with
  | nil => simp [firstBlank] at h
  | cons a t ih =>
    cases hns : isBlank a.«namespace» with
    | true =>
      simp only [firstBlank, hns, if_true, Option.some.injEq, Prod.mk.injEq] at h
      obtain ⟨hi, hf⟩ := h
      subst hi; subst hf
      exact ⟨by simp, Or.inl ⟨rfl, hns⟩⟩
    | false =>
      cases hn : isBlank a.name with
      | true =>
        simp only [firstBlank, hns, hn, Bool.false_eq_true, if_false, if_true,
          Option.some.injEq, Prod.mk.injEq] at h
        obtain ⟨hi, hf⟩ := h
        subst hi; subst hf
        exact ⟨by simp, Or.inr ⟨rfl, hn⟩⟩
      | false =>
        simp only [firstBlank, hns, hn, Bool.false_eq_true, if_false,
          Option.map_eq_some'] at h
        rcases h with ⟨⟨j, g⟩, hj, hje⟩
        simp only [Prod.mk.injEq] at hje
        obtain ⟨hji, hgf⟩ := hje
        subst hgf
        obtain ⟨hjl, hcase⟩ := ih j hj
        subst hji
        exact ⟨by simpa using Nat.succ_lt_succ hjl, hcase⟩

lemma hasDuplicateKeys_eq_true_iff (l : List CredAttribute) :
    hasDuplicateKeys l = true ↔ ¬ (l.map attrKey).Nodup := by
  induction l with
  | nil => simp [hasDuplicateKeys]
  | cons a t ih =>
    have hmem : (∃ b, b ∈ t ∧ attrKey b = attrKey a) ↔ attrKey a ∈ t.map attrKey := by
      simp [List.mem_map]
    simp only [hasDuplicateKeys, Bool.or_eq_true, List.any_eq_true, decide_eq_true_eq,
      List.map_cons, List.nodup_cons, ih]
    rw [hmem]
    tauto

/- Claim theorems -/

/-- C4: a credential reference in which neither variant is present, or whose
present identifier is empty, makes issuance fail with the error message
keyed to the credential field, HTTP 400, and no persisted UserCredential. -/
theorem issue_missing_credential_id
    (db : List CredentialDefinition) (store : Store) (username : String)
    (ref : CredentialRef) (attrs : List CredAttribute)
    (h1 : isBlank username = false) (h2 : refMissingId ref = true) :
    issue db store username ref attrs =
      (⟨400, none, [("credential", .messages [missingIdMsg])], []⟩, store) := by
  cases ref with
  | blank => simp [issue, h1, resolve]
  | program pid =>
    simp only [refMissingId, decide_eq_true_eq] at h2
    simp [issue, h1, resolve, h2]
  | course cid ctype =>
    simp only [refMissingId, decide_eq_true_eq] at h2
    simp [issue, h1, resolve, h2]

/-- Witness for C4: the concrete empty program id of the test data. -/
theorem issue_missing_credential_id_witness :
    issue [.programCertificate "1"] ⟨[], 0⟩ "test_user" (.program "") [⟨"testing", "grade", "0.8"⟩] =
      (⟨400, none, [("credential", .messages [missingIdMsg])], []⟩, ⟨[], 0⟩) :=
  issue_missing_credential_id _ _ _ _ _ (by decide) (by decide)

/-- C5: a present identifier with no matching credential definition makes
issuance fail with HTTP 400 and exactly one ERROR-level log record whose
message quotes the identifier and the underlying lookup failure text. -/
theorem issue_credential_not_found
    (db : List CredentialDefinition) (store : Store) (username : String)
    (ref : CredentialRef) (attrs : List CredAttribute) (i u : String)
    (h1 : isBlank username = false)
    (h2 : resolve db ref = .error (.credentialNotFound i u)) :
    issue db store username ref attrs =
      (⟨400, none, [("credential", .messages [credentialNotFoundMsg i u])],
        [⟨serializerLogger, .error, credentialNotFoundMsg i u⟩]⟩, store) := by
  simp [issue, h1, h2]

/-- Witness for C5: program id 10 with an empty registry, as in the test; the
logged message is the exact string the test asserts on. -/
theorem issue_credential_not_found_witness :
    issue [] ⟨[], 0⟩ "test_user" (.program "10") [] =
      (⟨400, none, [("credential", .messages [credentialNotFoundMsg "10" programLookupError])],
        [⟨serializerLogger, .error, credentialNotFoundMsg "10" programLookupError⟩]⟩, ⟨[], 0⟩) ∧
    credentialNotFoundMsg "10" programLookupError =
      "Credential ID [10] for [ProgramCertificate matching query does not exist.]" :=
  ⟨issue_credential_not_found _ _ _ _ _ _ _ (by decide) (by rfl), by decide⟩

/-- C6: a list request without a username filter always fails with HTTP 400,
whatever the other filters are; it never falls back to listing everything. -/
theorem list_without_username_fails (store : Store) (statusFilter : Option String) :
    listCredentials store none statusFilter = .error .missingRequiredFilter ∧
    listStatusCode (listCredentials store none statusFilter) = 400 := by
  simp [listCredentials, listStatusCode]

/-- C2: an attribute sequence whose elements all pass the per-element non-blank
checks but which repeats a (namespace, name) key makes issuance fail with the
single sequence-level message keyed to the attributes field, HTTP 400, and no
persisted UserCredential. -/
theorem issue_duplicate_attributes
    (db : List CredentialDefinition) (store : Store) (username : String)
    (ref : CredentialRef) (d : CredentialDefinition) (attrs : List CredAttribute)
    (h1 : isBlank username = false)
    (h2 : resolve db ref = .ok d)
    (h3 : ∀ a ∈ attrs, isBlank a.«namespace» = false ∧ isBlank a.name = false)
    (h4 : ¬ (attrs.map attrKey).Nodup) :
    issue db store username ref attrs =
      (⟨400, none, [("attributes", .messages [duplicatedMsg])], []⟩, store) := by
  have hb : firstBlank attrs = none := (firstBlank_eq_none_iff attrs).mpr h3
  have hd : hasDuplicateKeys attrs = true := (hasDuplicateKeys_eq_true_iff attrs).mpr h4
  simp [issue, h1, h2, validateAttributes, hb, hd]

/-- Witness for C2: the four attributes of the duplicate-attributes test, with
the (white, grade) key repeated. -/
theorem issue_duplicate_attributes_witness :
    issue [.programCertificate "1"] ⟨[], 0⟩ "test_user" (.program "1")
        [⟨"white", "grade", "0.5"⟩, ⟨"dummyspace", "grade", "0.6"⟩,
         ⟨"white", "grade", "0.8"⟩, ⟨"white", "grade", "0.8"⟩] =
      (⟨400, none, [("attributes", .messages [duplicatedMsg])], []⟩, ⟨[], 0⟩) :=
  issue_duplicate_attributes _ _ _ _ (.programCertificate "1") _
    (by decide) (by rfl) (by decide) (by decide)

/-- C3: an attribute sequence in which some entry has a blank namespace or name
makes issuance fail with HTTP 400 and no persistence, the error attributed to
the position of a blank entry with the may-not-be-blank message; an empty
value alone does not cause failure. -/
theorem issue_blank_attribute_field
    (db : List CredentialDefinition) (store : Store) (username : String)
    (ref : CredentialRef) (d : CredentialDefinition)
    (h1 : isBlank username = false)
    (h2 : resolve db ref = .ok d) :
    (∀ attrs : List CredAttribute,
      (∃ a ∈ attrs, isBlank a.«namespace» = true ∨ isBlank a.name = true) →
      ∃ i f, issue db store username ref attrs =
          (⟨400, none, [("attributes", .atIndex i f [blankMsg])], []⟩, store) ∧
        ∃ hi : i < attrs.length,
          (f = "namespace" ∧ isBlank (attrs.get ⟨i, hi⟩).«namespace» = true) ∨
          (f = "name" ∧ isBlank (attrs.get ⟨i, hi⟩).name = true)) ∧
    (∀ ns nm : String, isBlank ns = false → isBlank nm = false →
      (issue db store username ref [⟨ns, nm, ""⟩]).1.statusCode = 201) := by
  constructor
  · intro attrs hex
    have hne : firstBlank attrs ≠ none := by
      rw [Ne, firstBlank_eq_none_iff]
      intro hall
      rcases hex with ⟨a, ha, hblank⟩
      obtain ⟨hns, hn⟩ := hall a ha
      rcases hblank with hb | hb
      · rw [hns] at hb; exact absurd hb (by simp)
      · rw [hn] at hb; exact absurd hb (by simp)
    rcases hp : firstBlank attrs with _ | ⟨i, f⟩
    · exact absurd hp hne
    refine ⟨i, f, ?_, firstBlank_spec attrs i f hp⟩
    simp [issue, h1, h2, validateAttributes, hp]
  · intro ns nm hns hnm
    have hb : firstBlank [(⟨ns, nm, ""⟩ : CredAttribute)] = none := by
      simp [firstBlank, hns, hnm]
    have hd : hasDuplicateKeys [(⟨ns, nm, ""⟩ : CredAttribute)] = false := by
      simp [hasDuplicateKeys]
    cases hf : findCredential store username d with
    | some existing => simp [issue, h1, h2, validateAttributes, hb, hd, hf]
    | none => simp [issue, h1, h2, validateAttributes, hb, hd, hf]

/-- Witness for C3: the two attributes of the empty-attributes test, whose
second entry has a blank namespace, plus a passing entry with an empty
value. -/
theorem issue_blank_attribute_field_witness :
    (∃ i f, issue [.programCertificate "1"] ⟨[], 0⟩ "test_user_duplicate_attr" (.program "1")
        [⟨"white", "grade", "0.5"⟩, ⟨"", "grade", "0.8"⟩] =
        (⟨400, none, [("attributes", .atIndex i f [blankMsg])], []⟩, ⟨[], 0⟩) ∧
      ∃ hi : i < ([⟨"white", "grade", "0.5"⟩, ⟨"", "grade", "0.8"⟩] : List CredAttribute).length,
        (f = "namespace" ∧
          isBlank (([⟨"white", "grade", "0.5"⟩, ⟨"", "grade", "0.8"⟩] : List CredAttribute).get
            ⟨i, hi⟩).«namespace» = true) ∨
        (f = "name" ∧
          isBlank (([⟨"white", "grade", "0.5"⟩, ⟨"", "grade", "0.8"⟩] : List CredAttribute).get
            ⟨i, hi⟩).name = true)) ∧
    (issue [.programCertificate "1"] ⟨[], 0⟩ "test_user_duplicate_attr" (.program "1")
        [⟨"white", "grade", ""⟩]).1.statusCode = 201 :=
  ⟨(issue_blank_attribute_field _ _ _ _ (.programCertificate "1") (by decide) (by rfl)).1 _
      ⟨⟨"", "grade", "0.8"⟩, by decide, by decide⟩,
    (issue_blank_attribute_field _ _ _ _ (.programCertificate "1") (by decide) (by rfl)).2
      "white" "grade" (by decide) (by decide)⟩

/-- C1: for a valid request, a first issuance creates the record with status
awarded and the validated attributes, returning HTTP 201; a second issuance
for the same (username, credential reference) returns the same record with
HTTP 201, leaves the store untouched, does not attach the newly submitted
attributes, and emits exactly one WARNING log with the already-has-a-credential
message. -/
theorem issue_idempotent
    (db : List CredentialDefinition) (store : Store) (username : String)
    (ref : CredentialRef) (d : CredentialDefinition) (attrs1 attrs2 : List CredAttribute)
    (h1 : isBlank username = false)
    (h2 : resolve db ref = .ok d)
    (h3 : validateAttributes attrs1 = .ok attrs1)
    (h4 : validateAttributes attrs2 = .ok attrs2)
    (h5 : findCredential store username d = none) :
    issue db store username ref attrs1 =
      (⟨201, some ⟨store.nextId, username, d, .awarded, "", attrs1⟩, [], []⟩,
        ⟨store.credentials ++ [⟨store.nextId, username, d, .awarded, "", attrs1⟩],
          store.nextId + 1⟩) ∧
    issue db
        ⟨store.credentials ++ [⟨store.nextId, username, d, .awarded, "", attrs1⟩],
          store.nextId + 1⟩ username ref attrs2 =
      (⟨201, some ⟨store.nextId, username, d, .awarded, "", attrs1⟩, [],
          [⟨issuerLogger, .warning, duplicateIssuanceMsg username (definitionKey d)⟩]⟩,
        ⟨store.credentials ++ [⟨store.nextId, username, d, .awarded, "", attrs1⟩],
          store.nextId + 1⟩) := by
  have hfind : findCredential
      ⟨store.credentials ++ [⟨store.nextId, username, d, .awarded, "", attrs1⟩],
        store.nextId + 1⟩ username d =
      some ⟨store.nextId, username, d, .awarded, "", attrs1⟩ := by
    unfold findCredential at h5 ⊢
    rw [find?_append_of_none _ _ _ h5]
    simp
  constructor
  · simp [issue, h1, h2, h3, h5]
  · simp [issue, h1, h2, h4, hfind]

/-- Witness for C1: issuing the same program credential twice for the same user,
as in the existing-usercredential test. -/
theorem issue_idempotent_witness :
    issue [.programCertificate "1"] ⟨[], 0⟩ "test_user" (.program "1")
        [⟨"white", "grade", "0.5"⟩] =
      (⟨201, some ⟨0, "test_user", .programCertificate "1", .awarded, "",
          [⟨"white", "grade", "0.5"⟩]⟩, [], []⟩,
        ⟨[⟨0, "test_user", .programCertificate "1", .awarded, "",
          [⟨"white", "grade", "0.5"⟩]⟩], 1⟩) ∧
    issue [.programCertificate "1"]
        ⟨[⟨0, "test_user", .programCertificate "1", .awarded, "",
          [⟨"white", "grade", "0.5"⟩]⟩], 1⟩ "test_user" (.program "1")
        [⟨"white", "grade", "0.5"⟩] =
      (⟨201, some ⟨0, "test_user", .programCertificate "1", .awarded, "",
          [⟨"white", "grade", "0.5"⟩]⟩, [],
          [⟨issuerLogger, .warning,
            duplicateIssuanceMsg "test_user" (definitionKey (.programCertificate "1"))⟩]⟩,
        ⟨[⟨0, "test_user", .programCertificate "1", .awarded, "",
          [⟨"white", "grade", "0.5"⟩]⟩], 1⟩) :=
  issue_idempotent [.programCertificate "1"] ⟨[], 0⟩ "test_user" (.program "1")
    (.programCertificate "1") [⟨"white", "grade", "0.5"⟩] [⟨"white", "grade", "0.5"⟩]
    (by decide) (by rfl) (by rfl) (by rfl) (by rfl)

lemma find?_map_update (l : List UserCredential) (i : Nat) (uc uc2 : UserCredential)
    (hid : uc2.id = uc.id)
    (h : l.find? (fun c => c.id = i) = some uc) :
    (l.map (fun c => if c.id = i then uc2 else c)).find? (fun c => c.id = i) = some uc2 := by
  induction l with
  | nil => simp at h
  | cons a t ih =>
    by_cases ha : a.id = i
    · rw [List.find?_cons_of_pos _ (by simp [ha])] at h
      have hau : a = uc := by simpa using h
      subst hau
      simp only [List.map_cons, if_pos ha]
      rw [List.find?_cons_of_pos _ (by simp [hid, ha])]
    · rw [List.find?_cons_of_neg _ (by simp [ha])] at h
      simp only [List.map_cons, if_neg ha]
      rw [List.find?_cons_of_neg _ (by simp [ha])]
      exact ih h

/-- C7: a partial update setting status to revoked and download_url to a
different value succeeds with HTTP 200, the stored status becomes revoked,
and the stored download_url is unchanged. -/
theorem patch_updates_status_only
    (store : Store) (i : Nat) (uc : UserCredential) (v : String)
    (_hv : v ≠ uc.download_url)
    (h : store.credentials.find? (fun c => c.id = i) = some uc) :
    updateCredential store i [("status", "revoked"), ("download_url", v)] =
      (200, ⟨store.credentials.map
        (fun c => if c.id = i then { uc with status := .revoked } else c), store.nextId⟩) ∧
    (store.credentials.map
        (fun c => if c.id = i then { uc with status := .revoked } else c)).find?
        (fun c => c.id = i) = some { uc with status := .revoked } ∧
    ({ uc with status := .revoked } : UserCredential).download_url = uc.download_url := by
  refine ⟨?_, find?_map_update store.credentials i uc { uc with status := .revoked } rfl h, rfl⟩
  simp [updateCredential, h, applyPatch, lookupField, statusOfString, List.find?]

/-- Witness for C7: the patch of the partial-update test on a concrete stored
credential. -/
theorem patch_updates_status_only_witness :
    updateCredential ⟨[⟨1, "alice", .programCertificate "1", .awarded, "http://x", []⟩], 2⟩ 1
        [("status", "revoked"), ("download_url", "http://xtest")] =
      (200, ⟨[⟨1, "alice", .programCertificate "1", .awarded, "http://x", []⟩].map
        (fun c => if c.id = 1 then
          { (⟨1, "alice", .programCertificate "1", .awarded, "http://x", []⟩ : UserCredential)
            with status := .revoked } else c), 2⟩) ∧
    ([(⟨1, "alice", .programCertificate "1", .awarded, "http://x", []⟩ : UserCredential)].map
        (fun c => if c.id = 1 then
          { (⟨1, "alice", .programCertificate "1", .awarded, "http://x", []⟩ : UserCredential)
            with status := .revoked } else c)).find? (fun c => c.id = 1) =
      some { (⟨1, "alice", .programCertificate "1", .awarded, "http://x", []⟩ : UserCredential)
        with status := .revoked } ∧
    ({ (⟨1, "alice", .programCertificate "1", .awarded, "http://x", []⟩ : UserCredential)
        with status := .revoked } : UserCredential).download_url = "http://x" :=
  patch_updates_status_only
    ⟨[⟨1, "alice", .programCertificate "1", .awarded, "http://x", []⟩], 2⟩ 1
    ⟨1, "alice", .programCertificate "1", .awarded, "http://x", []⟩ "http://xtest"
    (by decide) (by rfl)

/-- C8 counterexample: patching status to revoked together with a new
download_url leaves the stored download_url at its old value, so the
download_url field of a patch does not take effect. -/
theorem patch_download_url_not_applied_cex :
    updateCredential ⟨[⟨1, "alice", .programCertificate "1", .awarded, "http://x", []⟩], 2⟩ 1
        [("status", "revoked"), ("download_url", "http://xtest")] =
      (200, ⟨[⟨1, "alice", .programCertificate "1", .revoked, "http://x", []⟩], 2⟩) ∧
    "http://x" ≠ "http://xtest" :=
  ⟨by rfl, by decide⟩

/-- C8 amended: only the status field of a patch takes effect; download_url and
any other field present in the patch (an id, for example) are silently ignored
rather than producing an error. -/
theorem patch_ignores_all_but_status
    (uc : UserCredential) (patch : List (String × String)) :
    (lookupField patch "status" = none → applyPatch uc patch = .ok uc) ∧
    (∀ s st, lookupField patch "status" = some s → statusOfString s = some st →
      applyPatch uc patch = .ok { uc with status := st }) := by
  constructor
  · intro h; simp [applyPatch, h]
  · intro s st hs hst; simp [applyPatch, hs, hst]

/-- Witness for C8 amended: a patch carrying id, status and download_url fields
is accepted and only status takes effect. -/
theorem patch_ignores_all_but_status_witness :
    applyPatch ⟨1, "alice", .programCertificate "1", .awarded, "http://x", []⟩
        [("id", "1"), ("status", "revoked"), ("download_url", "http://y")] =
      .ok ⟨1, "alice", .programCertificate "1", .revoked, "http://x", []⟩ :=
  (patch_ignores_all_but_status
      ⟨1, "alice", .programCertificate "1", .awarded, "http://x", []⟩
      [("id", "1"), ("status", "revoked"), ("download_url", "http://y")]).2
    "revoked" .revoked (by rfl) (by rfl)

/-- C9: the forward data migration touches every row, sets start_date to start
and end_date to end, and changes nothing else. -/
theorem forwards_copies_dates (rows : List CourseRun) (i : Nat)
    (h1 : i < (copy_column_values_forwards rows).length) (h2 : i < rows.length) :
    (copy_column_values_forwards rows).length = rows.length ∧
    (copy_column_values_forwards rows)[i].start_date = rows[i].start ∧
    (copy_column_values_forwards rows)[i].end_date = rows[i].«end» ∧
    (copy_column_values_forwards rows)[i].start = rows[i].start ∧
    (copy_column_values_forwards rows)[i].«end» = rows[i].«end» ∧
    (copy_column_values_forwards rows)[i].id = rows[i].id ∧
    (copy_column_values_forwards rows)[i].other = rows[i].other := by
  unfold copy_column_values_forwards at h1 ⊢
  simp [List.getElem_map]

/-- Witness for C9: a two-row table with distinct date columns. -/
theorem forwards_copies_dates_witness :
    (copy_column_values_forwards
        [⟨1, some "2019-01-01", some "2019-06-01", none, none, "a"⟩,
         ⟨2, none, some "2020-06-01", some "x", some "y", "b"⟩]).length = 2 ∧
    (copy_column_values_forwards
        [⟨1, some "2019-01-01", some "2019-06-01", none, none, "a"⟩,
         ⟨2, none, some "2020-06-01", some "x", some "y", "b"⟩])[0].start_date =
      some "2019-01-01" := by
  have h := forwards_copies_dates
    [⟨1, some "2019-01-01", some "2019-06-01", none, none, "a"⟩,
     ⟨2, none, some "2020-06-01", some "x", some "y", "b"⟩] 0
    (by decide) (by decide)
  exact ⟨h.1, h.2.1⟩

/-- C10: the backward data migration is a no-op: it returns every row, all
fields included, exactly as it was, while being defined (so a rollback is
permitted). -/
theorem backwards_is_noop (rows : List CourseRun) :
    copy_column_values_backwards rows = rows := rfl

end Credentials
